import Mathlib

/-!
Shallow embedding of the fragment-reassembly core of the tardocbill-decoder
repository (decode.js, the QR-analysis script, and src/extract_qr.ts),
together with theorems checking the specification's claims about it.

Strings are modelled with Lean `String`; JavaScript whitespace handling
(`trim`, `trimEnd`, the `\s` character class) is modelled with
`Char.isWhitespace`, which covers the ASCII whitespace characters occurring
in the QR payload domain.  JavaScript `Array.prototype.sort` is stable; it
is modelled with `List.insertionSort`, which is stable as well, applied to
the same comparator key.  External library calls (`Buffer.from(-, 'base64')`
composed with `pako.inflateRaw`) are modelled as an abstract parameter
`inflate : String → Option String`, where `none` models a thrown exception.
-/

namespace TardocDecoder

/-- Structured Append chunk metadata as reported by jsQR
(`chunk.currentSequence`, `chunk.totalSequence`, `chunk.parity`). -/
structure SAInfo where
  currentSequence : Nat
  totalSequence : Nat
  parity : Nat
  deriving DecidableEq

/-- One decoded QR symbol as collected by `decodeStructuredAppend` in
decode.js: its text payload (`qr.data`) and the optional Structured Append
metadata (`qr.structuredAppend`; the source's derived flag
`isStructuredAppend` is `structuredAppend.isSome`).  The source record also
carries `imagePath` and `binaryData`, which no claim touches. -/
structure QRCode where
  data : String
  structuredAppend : Option SAInfo
  deriving DecidableEq

instance : Inhabited QRCode := ⟨⟨"", none⟩⟩

/-- JavaScript `String.prototype.trimEnd`: remove the maximal run of
trailing whitespace. -/
def jsTrimEnd (s : String) : String :=
  String.mk ((s.data.reverse.dropWhile Char.isWhitespace).reverse)

/-- JavaScript `String.prototype.trimStart`: remove the maximal run of
leading whitespace. -/
def jsTrimStart (s : String) : String :=
  String.mk (s.data.dropWhile Char.isWhitespace)

/-- JavaScript `String.prototype.trim`: remove leading and trailing
whitespace. -/
def jsTrim (s : String) : String :=
  jsTrimEnd (jsTrimStart s)

/-- JavaScript `String.prototype.startsWith`. -/
def jsStartsWith (s pat : String) : Bool :=
  pat.data.isPrefixOf s.data

/-- JavaScript `array.join('')`: concatenation of a list of strings. -/
def concatAll : List String → String
  | [] => ""
  | s :: rest => s ++ concatAll rest

/-- JavaScript `s.replace(/[\r\n]/g, '')`: remove every CR and LF
character, wherever it occurs. -/
def stripCRLF (s : String) : String :=
  String.mk (s.data.filter (fun c => !(c == '\r' || c == '\n')))

/-- Sequence key used by the sort comparator in decode.js line 112
(`a.structuredAppend.currentSequence`).  Fragments reaching the comparator
always carry metadata, so the `none` default is never exercised there. -/
def getSeq (qr : QRCode) : Nat :=
  match qr.structuredAppend with
  | some sa => sa.currentSequence
  | none => 0

/-- Reading `structuredCodes[0].structuredAppend.totalSequence` (decode.js
line 116) from the head of the sorted list. -/
def firstTotalSeq : List QRCode → Nat
  | [] => 0
  | qr :: _ =>
    match qr.structuredAppend with
    | some sa => sa.totalSequence
    | none => 0

/-- Stable ascending sort by `currentSequence` (decode.js lines 111-113);
`List.insertionSort` is stable, like JavaScript `Array.prototype.sort`. -/
def sortSA (l : List QRCode) : List QRCode :=
  l.insertionSort (fun a b => getSeq a ≤ getSeq b)

/-- The filter `qrCodes.filter(qr => qr.isStructuredAppend)` of decode.js
line 98. -/
def structuredFilter (l : List QRCode) : List QRCode :=
  l.filter (fun qr => qr.structuredAppend.isSome)

/-- Loop of decode.js lines 126-130: the indices in `0 … expectedTotal-1`
that occur in no fragment's `currentSequence`. -/
def missingSequencesOf (expectedTotal : Nat) (sequences : List Nat) : List Nat :=
  (List.range expectedTotal).filter (fun i => !(sequences.contains i))

/-- Result of `decodeStructuredAppend`: the source returns one of two
object shapes (decode.js lines 102-107 and 135-143). -/
inductive SAResult where
  | plain (totalCodes : Nat) (decodedData : String) (codes : List QRCode)
  | structured (totalCodes : Nat) (expectedTotal : Nat)
      (missingSequences : List Nat) (complete : Bool) (decodedData : String)
      (codes : List QRCode)
  deriving DecidableEq

/-- Core of `decodeStructuredAppend` (decode.js lines 97-144), starting
from the batch of successfully decoded symbols (the image-decoding loop of
lines 74-95 is external I/O; sources yielding no symbol have already been
dropped from the batch). -/
def decodeStructuredAppend (qrCodes : List QRCode) : SAResult :=
  let structuredCodes := structuredFilter qrCodes
  if structuredCodes.isEmpty then
    .plain qrCodes.length (concatAll (qrCodes.map (fun qr => qr.data))) qrCodes
  else
    let sorted := sortSA structuredCodes
    let expectedTotal := firstTotalSeq sorted + 1
    let missing := missingSequencesOf expectedTotal (sorted.map getSeq)
    .structured structuredCodes.length expectedTotal missing
      (missing.length == 0) (concatAll (sorted.map (fun qr => qr.data))) sorted

/-- The `(index, payload length)` pairs built in decode.js line 166
(`qrCodes.map((qr, i) => ({qr, index: i, length: qr.data.length}))`);
the `qr` field of the source record is never read afterwards (only
`.index` and `.length` are), so it is not carried here. -/
def lenIndexFrom (i : Nat) : List QRCode → List (Nat × Nat)
  | [] => []
  | qr :: rest => (i, qr.data.length) :: lenIndexFrom (i + 1) rest

/-- Index/length pairs for a batch, starting at index 0. -/
def lenIndex (l : List QRCode) : List (Nat × Nat) :=
  lenIndexFrom 0 l

/-- Stable descending sort by payload length (decode.js line 167,
comparator `(a, b) => b.length - a.length`). -/
def sortLenDesc (l : List (Nat × Nat)) : List (Nat × Nat) :=
  l.insertionSort (fun a b => b.2 ≤ a.2)

/-- The hardcoded candidate list of decode.js lines 175-184, built from the
three longest fragments (`sorted[0]`, `sorted[1]`, `sorted[2]`).  With
fewer than three fragments the source dereferences `undefined` and throws a
TypeError, modelled by `none`. -/
def testOrders (qrCodes : List QRCode) : Option (List (List Nat)) :=
  match sortLenDesc (lenIndex qrCodes) with
  | s0 :: s1 :: s2 :: _ =>
    some [[s1.1, s0.1, s2.1], [s0.1, s1.1, s2.1], [s1.1, s2.1, s0.1],
          [s2.1, s0.1, s1.1], [s2.1, s1.1, s0.1], [s0.1, s2.1, s1.1]]
  | _ => none

/-- JavaScript indexing `qrCodes[i].data` (decode.js line 192); the indices
used by the search always come from `testOrders` and are in range. -/
def dataAt : List QRCode → Nat → String
  | [], _ => ""
  | qr :: _, 0 => qr.data
  | _ :: rest, i + 1 => dataAt rest i

/-- `order.map(i => qrCodes[i].data).join('')` of decode.js line 192. -/
def combineOrder (qrCodes : List QRCode) (order : List Nat) : String :=
  concatAll (order.map (dataAt qrCodes))

/-- The cleaning step of decode.js line 195:
`combined.replace(/[\r\n]/g, '').trimEnd()`. -/
def cleanCombined (qrCodes : List QRCode) (order : List Nat) : String :=
  jsTrimEnd (stripCRLF (combineOrder qrCodes order))

/-- Success value of `detectStructuredAppendOrder` (decode.js lines
207-212); the purely diagnostic `orderLabels` string is not carried. -/
structure DetectResult where
  order : List Nat
  combinedData : String
  decompressedData : String
  deriving DecidableEq

/-- One iteration of the search loop of decode.js lines 186-218: combine
the payloads in the candidate order, clean, base64-decode and inflate
(abstracted as `inflate`; `none` models a thrown exception, caught by the
loop), and accept only when the decompressed text, trimmed, starts with
the XML prolog marker (line 202). -/
def tryOrder (inflate : String → Option String) (qrCodes : List QRCode)
    (order : List Nat) : Option DetectResult :=
  match inflate (cleanCombined qrCodes order) with
  | none => none
  | some decompressed =>
    if jsStartsWith (jsTrim decompressed) "<?xml" then
      some ⟨order, cleanCombined qrCodes order, decompressed⟩
    else
      none

/-- First-success scan over the candidate list (the `for`/`return` shape of
decode.js lines 186-218). -/
def firstSuccess (inflate : String → Option String) (qrCodes : List QRCode) :
    List (List Nat) → Option DetectResult
  | [] => none
  | o :: os =>
    match tryOrder inflate qrCodes o with
    | some r => some r
    | none => firstSuccess inflate qrCodes os

/-- Outcome of `detectStructuredAppendOrder`: a thrown TypeError (fewer
than three fragments), the `null` return of decode.js line 220, or the
success object of lines 207-212. -/
inductive DetectOutcome where
  | typeError
  | noValidOrder
  | found (r : DetectResult)
  deriving DecidableEq

/-- `detectStructuredAppendOrder` (decode.js lines 162-221), parameterised
by the external base64+inflateRaw pipeline. -/
def detectStructuredAppendOrder (inflate : String → Option String)
    (qrCodes : List QRCode) : DetectOutcome :=
  match testOrders qrCodes with
  | none => .typeError
  | some orders =>
    match firstSuccess inflate qrCodes orders with
    | some r => .found r
    | none => .noValidOrder

/-- The cleaning step of `processDeflatedData` (decode.js line 233):
`base64Data.replace(/[\r\n\s]/g, '').trim()` — the character class contains
`\s`, so every whitespace character is removed, wherever it occurs, before
the final (then vacuous) `trim`. -/
def cleanBase64 (s : String) : String :=
  jsTrim (String.mk (s.data.filter (fun c => !c.isWhitespace)))

/-- The cleaning step of `testDecompression` in the analysis script
(line 1105 of the concatenated source):
`data.replace(/[\r\n]/g, '').trimEnd()`. -/
def cleanBase64Test (s : String) : String :=
  jsTrimEnd (stripCRLF s)

/-- The XML-content flag of `processDeflatedData` (decode.js lines 249 and
264): `decompressed.trim().startsWith('<?xml') ||
decompressed.trim().startsWith('<')`. -/
def isXMLFlag (s : String) : Bool :=
  jsStartsWith (jsTrim s) "<?xml" || jsStartsWith (jsTrim s) "<"

/-- Fragment shape of src/extract_qr.ts (`StructuredAppendQR`). -/
structure StructuredAppendQR where
  position : Nat
  total : Nat
  data : String
  deriving DecidableEq

/-- Stable ascending sort by `position` (extract_qr.ts line 397). -/
def sortPos (l : List StructuredAppendQR) : List StructuredAppendQR :=
  l.insertionSort (fun a b => a.position ≤ b.position)

/-- `combineStructuredAppendData` of src/extract_qr.ts lines 395-409: sort
by position, concatenate, remove trailing spaces. -/
def combineStructuredAppendData (l : List StructuredAppendQR) : String :=
  jsTrimEnd (concatAll ((sortPos l).map (fun qr => qr.data)))

instance : IsTotal QRCode (fun a b => getSeq a ≤ getSeq b) :=
  ⟨fun a b => Nat.le_total (getSeq a) (getSeq b)⟩

instance : IsTrans QRCode (fun a b => getSeq a ≤ getSeq b) :=
  ⟨fun _ _ _ h1 h2 => Nat.le_trans h1 h2⟩

instance : IsTotal StructuredAppendQR (fun a b => a.position ≤ b.position) :=
  ⟨fun a b => Nat.le_total a.position b.position⟩

instance : IsTrans StructuredAppendQR (fun a b => a.position ≤ b.position) :=
  ⟨fun _ _ _ h1 h2 => Nat.le_trans h1 h2⟩

theorem sortSA_sorted (l : List QRCode) :
    List.Sorted (fun a b => getSeq a ≤ getSeq b) (sortSA l) :=
  List.sorted_insertionSort _ l

theorem sortSA_perm (l : List QRCode) : List.Perm (sortSA l) l :=
  List.perm_insertionSort _ l

theorem sortPos_sorted (l : List StructuredAppendQR) :
    List.Sorted (fun a b => a.position ≤ b.position) (sortPos l) :=
  List.sorted_insertionSort _ l

theorem sortPos_perm (l : List StructuredAppendQR) : List.Perm (sortPos l) l :=
  List.perm_insertionSort _ l

theorem structuredFilter_eq_self {l : List QRCode}
    (h : ∀ qr ∈ l, qr.structuredAppend.isSome = true) :
    structuredFilter l = l :=
  List.filter_eq_self.mpr h

theorem decodeStructuredAppend_all_addressed (l : List QRCode)
    (hall : ∀ qr ∈ l, qr.structuredAppend.isSome = true) (hne : l ≠ []) :
    decodeStructuredAppend l =
      .structured l.length (firstTotalSeq (sortSA l) + 1)
        (missingSequencesOf (firstTotalSeq (sortSA l) + 1) ((sortSA l).map getSeq))
        ((missingSequencesOf (firstTotalSeq (sortSA l) + 1)
            ((sortSA l).map getSeq)).length == 0)
        (concatAll ((sortSA l).map (fun qr => qr.data))) (sortSA l) := by
  have hf := structuredFilter_eq_self hall
  have he : l.isEmpty = false := by
    cases l with
    | nil => exact absurd rfl hne
    | cons a t => rfl
  simp only [decodeStructuredAppend, hf, he, Bool.false_eq_true, if_false]

theorem mem_missingSequencesOf {et i : Nat} {seqs : List Nat} :
    i ∈ missingSequencesOf et seqs ↔ i < et ∧ ¬ i ∈ seqs := by
  simp [missingSequencesOf, List.mem_filter, List.mem_range, List.elem_iff]

/-- C1: for a batch in which every decoded fragment carries Structured
Append metadata, `decodeStructuredAppend` sorts the fragments ascending by
`currentSequence`, sets `expectedTotal` to the first sorted fragment's
`totalSequence` plus one, sets `missingSequences` to exactly the integers
below `expectedTotal` that appear among no fragment's `currentSequence`,
sets `complete` to `true` exactly when `missingSequences` is empty, and
always carries the concatenated payload (the payload is produced whether or
not the series is complete; decompression is attempted downstream in either
case). -/
theorem decode_allAddressed_spec (l : List QRCode)
    (hall : ∀ qr ∈ l, qr.structuredAppend.isSome = true) (hne : l ≠ []) :
    ∃ et ms c dd cs,
      decodeStructuredAppend l = .structured l.length et ms c dd cs ∧
      cs = sortSA l ∧
      List.Sorted (fun a b => getSeq a ≤ getSeq b) cs ∧
      et = firstTotalSeq cs + 1 ∧
      (∀ i : Nat, i ∈ ms ↔ (i < et ∧ ∀ qr ∈ l, getSeq qr ≠ i)) ∧
      (c = true ↔ ms = []) ∧
      dd = concatAll (cs.map (fun qr => qr.data)) := by
  refine ⟨_, _, _, _, _, decodeStructuredAppend_all_addressed l hall hne,
    rfl, sortSA_sorted l, rfl, ?_, ?_, rfl⟩
  · intro i
    rw [mem_missingSequencesOf]
    constructor
    · rintro ⟨hlt, hnm⟩
      refine ⟨hlt, fun qr hqr heq => hnm ?_⟩
      exact List.mem_map.mpr ⟨qr, (sortSA_perm l).mem_iff.mpr hqr, heq⟩
    · rintro ⟨hlt, hne'⟩
      refine ⟨hlt, fun hm => ?_⟩
      obtain ⟨qr, hqr, heq⟩ := List.mem_map.mp hm
      exact hne' qr ((sortSA_perm l).mem_iff.mp hqr) heq
  · simp [List.length_eq_zero]

theorem decode_allAddressed_spec_witness :
    (∀ qr ∈ ([⟨"B", some ⟨1, 1, 0⟩⟩, ⟨"A", some ⟨0, 1, 0⟩⟩] : List QRCode),
      qr.structuredAppend.isSome = true) ∧
    ([⟨"B", some ⟨1, 1, 0⟩⟩, ⟨"A", some ⟨0, 1, 0⟩⟩] : List QRCode) ≠ [] ∧
    (∃ et ms c dd cs,
      decodeStructuredAppend
          [⟨"B", some ⟨1, 1, 0⟩⟩, ⟨"A", some ⟨0, 1, 0⟩⟩] =
        .structured 2 et ms c dd cs ∧
      cs = sortSA [⟨"B", some ⟨1, 1, 0⟩⟩, ⟨"A", some ⟨0, 1, 0⟩⟩] ∧
      List.Sorted (fun a b => getSeq a ≤ getSeq b) cs ∧
      et = firstTotalSeq cs + 1 ∧
      (∀ i : Nat, i ∈ ms ↔ (i < et ∧
        ∀ qr ∈ ([⟨"B", some ⟨1, 1, 0⟩⟩, ⟨"A", some ⟨0, 1, 0⟩⟩] : List QRCode),
          getSeq qr ≠ i)) ∧
      (c = true ↔ ms = []) ∧
      dd = concatAll (cs.map (fun qr => qr.data))) :=
  ⟨by decide, by decide,
    decode_allAddressed_spec
      [⟨"B", some ⟨1, 1, 0⟩⟩, ⟨"A", some ⟨0, 1, 0⟩⟩] (by decide) (by decide)⟩

/-- C2 counterexample: a mixed batch (one unaddressed fragment "U" next to
one addressed fragment "A") is not routed to any heuristic path; the result
is precisely the exact, metadata-ordered concatenation of the addressed
subset alone, with the unaddressed payload discarded. -/
theorem decode_mixed_batch_cex :
    decodeStructuredAppend [⟨"U", none⟩, ⟨"A", some ⟨0, 0, 0⟩⟩] =
      .structured 1 1 [] true "A" [⟨"A", some ⟨0, 0, 0⟩⟩] := by
  decide

/-- C2 (amended): whenever at least one fragment of the batch is addressed
— even if others are not — `decodeStructuredAppend` takes the exact
metadata path restricted to the addressed subset: it sorts the addressed
fragments by `currentSequence` and returns their concatenation, discarding
the unaddressed fragments; the batch is never demoted to the heuristic
path. -/
theorem decode_mixed_uses_addressed_subset (l : List QRCode)
    (h : ∃ qr ∈ l, qr.structuredAppend.isSome = true) :
    ∃ et ms c, decodeStructuredAppend l =
      .structured (structuredFilter l).length et ms c
        (concatAll ((sortSA (structuredFilter l)).map (fun qr => qr.data)))
        (sortSA (structuredFilter l)) := by
  obtain ⟨qr, hm, hq⟩ := h
  have hmem : qr ∈ structuredFilter l := List.mem_filter.mpr ⟨hm, hq⟩
  have he : (structuredFilter l).isEmpty = false := by
    cases hfl : structuredFilter l with
    | nil => rw [hfl] at hmem; simp at hmem
    | cons a t => rfl
  have heq : decodeStructuredAppend l =
      .structured (structuredFilter l).length
        (firstTotalSeq (sortSA (structuredFilter l)) + 1)
        (missingSequencesOf (firstTotalSeq (sortSA (structuredFilter l)) + 1)
          ((sortSA (structuredFilter l)).map getSeq))
        ((missingSequencesOf (firstTotalSeq (sortSA (structuredFilter l)) + 1)
            ((sortSA (structuredFilter l)).map getSeq)).length == 0)
        (concatAll ((sortSA (structuredFilter l)).map (fun qr => qr.data)))
        (sortSA (structuredFilter l)) := by
    simp only [decodeStructuredAppend, he, Bool.false_eq_true, if_false]
  exact ⟨_, _, _, heq⟩

theorem decode_mixed_uses_addressed_subset_witness :
    (∃ qr ∈ ([⟨"X", none⟩, ⟨"P", some ⟨0, 1, 0⟩⟩, ⟨"Q", some ⟨1, 1, 0⟩⟩] : List QRCode),
      qr.structuredAppend.isSome = true) ∧
    (∃ et ms c, decodeStructuredAppend
        [⟨"X", none⟩, ⟨"P", some ⟨0, 1, 0⟩⟩, ⟨"Q", some ⟨1, 1, 0⟩⟩] =
      .structured (structuredFilter
          [⟨"X", none⟩, ⟨"P", some ⟨0, 1, 0⟩⟩, ⟨"Q", some ⟨1, 1, 0⟩⟩]).length et ms c
        (concatAll ((sortSA (structuredFilter
          [⟨"X", none⟩, ⟨"P", some ⟨0, 1, 0⟩⟩, ⟨"Q", some ⟨1, 1, 0⟩⟩])).map
            (fun qr => qr.data)))
        (sortSA (structuredFilter
          [⟨"X", none⟩, ⟨"P", some ⟨0, 1, 0⟩⟩, ⟨"Q", some ⟨1, 1, 0⟩⟩]))) :=
  ⟨⟨⟨"P", some ⟨0, 1, 0⟩⟩, by decide, rfl⟩,
    decode_mixed_uses_addressed_subset _
      ⟨⟨"P", some ⟨0, 1, 0⟩⟩, by decide, rfl⟩⟩

/-- C7 counterexample: the empty batch does not produce any failure value;
`decodeStructuredAppend` returns the ordinary non-Structured-Append success
shape with an empty `decodedData` string. -/
theorem decode_empty_batch_cex :
    decodeStructuredAppend [] = .plain 0 "" [] := by
  decide

/-- C7 (amended): a batch with no addressed fragment — in particular the
empty batch — yields the plain success result concatenating all payloads in
input order; there is no `NoFragments` failure value, and the empty batch
yields `totalCodes = 0` with an empty `decodedData` presented as a normal
outcome. -/
theorem decode_no_addressed_plain (l : List QRCode)
    (h : ∀ qr ∈ l, qr.structuredAppend.isSome = false) :
    decodeStructuredAppend l =
      .plain l.length (concatAll (l.map (fun qr => qr.data))) l := by
  have hf : structuredFilter l = [] := by
    rw [structuredFilter, List.filter_eq_nil_iff]
    intro a ha
    simp [h a ha]
  simp only [decodeStructuredAppend, hf, List.isEmpty_nil, if_true]

theorem decode_no_addressed_plain_witness :
    (∀ qr ∈ ([] : List QRCode), qr.structuredAppend.isSome = false) ∧
    decodeStructuredAppend ([] : List QRCode) =
      .plain ([] : List QRCode).length
        (concatAll (([] : List QRCode).map (fun qr => qr.data))) [] :=
  ⟨by decide, decode_no_addressed_plain [] (by decide)⟩

/-- C8 counterexample: two addressed fragments that disagree on
`totalSequence` (1 versus 5) are processed on the exact metadata path with
no warning value and no downgrade; `expectedTotal` comes from the first
sorted fragment alone and the result is even reported `complete`. -/
theorem decode_inconsistent_totals_cex :
    decodeStructuredAppend [⟨"A", some ⟨0, 1, 0⟩⟩, ⟨"B", some ⟨1, 5, 0⟩⟩] =
      .structured 2 2 [] true "AB"
        [⟨"A", some ⟨0, 1, 0⟩⟩, ⟨"B", some ⟨1, 5, 0⟩⟩] := by
  decide

/-- C8 (amended): `decodeStructuredAppend` performs no `totalCount`
consistency check at all: for every all-addressed batch — with no
requirement that the fragments agree on `totalSequence` — the exact
metadata-sorted path proceeds, and `expectedTotal` is derived solely from
the minimal-`currentSequence` fragment's `totalSequence` plus one; no
inconsistency signal exists and the batch is never downgraded to a
heuristic path. -/
theorem decode_ignores_total_disagreement (l : List QRCode)
    (hall : ∀ qr ∈ l, qr.structuredAppend.isSome = true) (hne : l ≠ []) :
    ∃ ms c, decodeStructuredAppend l =
      .structured l.length (firstTotalSeq (sortSA l) + 1) ms c
        (concatAll ((sortSA l).map (fun qr => qr.data))) (sortSA l) :=
  ⟨_, _, decodeStructuredAppend_all_addressed l hall hne⟩

theorem decode_ignores_total_disagreement_witness :
    (∀ qr ∈ ([⟨"A", some ⟨0, 2, 0⟩⟩, ⟨"B", some ⟨1, 9, 0⟩⟩] : List QRCode),
      qr.structuredAppend.isSome = true) ∧
    ([⟨"A", some ⟨0, 2, 0⟩⟩, ⟨"B", some ⟨1, 9, 0⟩⟩] : List QRCode) ≠ [] ∧
    (∃ ms c, decodeStructuredAppend
        [⟨"A", some ⟨0, 2, 0⟩⟩, ⟨"B", some ⟨1, 9, 0⟩⟩] =
      .structured 2
        (firstTotalSeq (sortSA [⟨"A", some ⟨0, 2, 0⟩⟩, ⟨"B", some ⟨1, 9, 0⟩⟩]) + 1)
        ms c
        (concatAll ((sortSA [⟨"A", some ⟨0, 2, 0⟩⟩, ⟨"B", some ⟨1, 9, 0⟩⟩]).map
          (fun qr => qr.data)))
        (sortSA [⟨"A", some ⟨0, 2, 0⟩⟩, ⟨"B", some ⟨1, 9, 0⟩⟩])) :=
  ⟨by decide, by decide,
    decode_ignores_total_disagreement
      [⟨"A", some ⟨0, 2, 0⟩⟩, ⟨"B", some ⟨1, 9, 0⟩⟩] (by decide) (by decide)⟩

/-- C10: `decodeStructuredAppend` performs no duplicate-index detection.
For every all-addressed batch — duplicates allowed — the decoded payload is
the concatenation of all fragment payloads in sort order, each fragment
contributing exactly once (the result list is a permutation of the batch,
so `totalCodes` is the full batch size even when it exceeds
`expectedTotal`), and `complete` is `true` exactly when every index below
`expectedTotal` occurs among the `currentSequence` values at least once. -/
theorem decode_duplicates_kept (l : List QRCode)
    (hall : ∀ qr ∈ l, qr.structuredAppend.isSome = true) (hne : l ≠ []) :
    ∃ et ms c cs, decodeStructuredAppend l =
      .structured l.length et ms c (concatAll (cs.map (fun qr => qr.data))) cs ∧
      List.Perm cs l ∧
      (c = true ↔ ∀ i < et, ∃ qr ∈ l, getSeq qr = i) := by
  refine ⟨_, _, _, _, decodeStructuredAppend_all_addressed l hall hne,
    sortSA_perm l, ?_⟩
  simp only [beq_iff_eq, List.length_eq_zero, missingSequencesOf,
    List.filter_eq_nil_iff]
  constructor
  · intro hnone i hi
    have := hnone i (List.mem_range.mpr hi)
    simp only [Bool.not_eq_true', Bool.not_eq_false, List.elem_iff] at this
    obtain ⟨qr, hqr, heq⟩ := List.mem_map.mp this
    exact ⟨qr, (sortSA_perm l).mem_iff.mp hqr, heq⟩
  · intro hocc i hi
    obtain ⟨qr, hqr, heq⟩ := hocc i (List.mem_range.mp hi)
    simp only [Bool.not_eq_true', Bool.not_eq_false, List.elem_iff]
    exact List.mem_map.mpr ⟨qr, (sortSA_perm l).mem_iff.mpr hqr, heq⟩

theorem decode_duplicates_kept_witness :
    (∀ qr ∈ ([⟨"A", some ⟨0, 1, 0⟩⟩, ⟨"B", some ⟨0, 1, 1⟩⟩,
        ⟨"C", some ⟨1, 1, 0⟩⟩] : List QRCode),
      qr.structuredAppend.isSome = true) ∧
    ([⟨"A", some ⟨0, 1, 0⟩⟩, ⟨"B", some ⟨0, 1, 1⟩⟩,
        ⟨"C", some ⟨1, 1, 0⟩⟩] : List QRCode) ≠ [] ∧
    (∃ et ms c cs, decodeStructuredAppend
        [⟨"A", some ⟨0, 1, 0⟩⟩, ⟨"B", some ⟨0, 1, 1⟩⟩, ⟨"C", some ⟨1, 1, 0⟩⟩] =
      .structured 3 et ms c (concatAll (cs.map (fun qr => qr.data))) cs ∧
      List.Perm cs
        [⟨"A", some ⟨0, 1, 0⟩⟩, ⟨"B", some ⟨0, 1, 1⟩⟩, ⟨"C", some ⟨1, 1, 0⟩⟩] ∧
      (c = true ↔ ∀ i < et, ∃ qr ∈ ([⟨"A", some ⟨0, 1, 0⟩⟩,
          ⟨"B", some ⟨0, 1, 1⟩⟩, ⟨"C", some ⟨1, 1, 0⟩⟩] : List QRCode),
        getSeq qr = i)) :=
  ⟨by decide, by decide,
    decode_duplicates_kept
      [⟨"A", some ⟨0, 1, 0⟩⟩, ⟨"B", some ⟨0, 1, 1⟩⟩, ⟨"C", some ⟨1, 1, 0⟩⟩]
      (by decide) (by decide)⟩

theorem lenIndexFrom_length : ∀ (i : Nat) (l : List QRCode),
    (lenIndexFrom i l).length = l.length
  | _, [] => rfl
  | i, _ :: rest => by simp [lenIndexFrom, lenIndexFrom_length (i + 1) rest]

theorem sortLenDesc_length (l : List (Nat × Nat)) :
    (sortLenDesc l).length = l.length :=
  (List.perm_insertionSort _ l).length_eq

theorem lenIndexFrom_congr : ∀ (i : Nat) (l1 l2 : List QRCode),
    l1.map (fun qr => qr.data) = l2.map (fun qr => qr.data) →
    lenIndexFrom i l1 = lenIndexFrom i l2
  | _, [], [], _ => rfl
  | _, [], _ :: _, h => by simp at h
  | _, _ :: _, [], h => by simp at h
  | i, a :: l1, b :: l2, h => by
    simp only [List.map_cons, List.cons.injEq] at h
    simp [lenIndexFrom, h.1, lenIndexFrom_congr (i + 1) l1 l2 h.2]

theorem dataAt_congr : ∀ (l1 l2 : List QRCode),
    l1.map (fun qr => qr.data) = l2.map (fun qr => qr.data) →
    ∀ i, dataAt l1 i = dataAt l2 i
  | [], [], _, _ => rfl
  | [], _ :: _, h, _ => by simp at h
  | _ :: _, [], h, _ => by simp at h
  | a :: l1, b :: l2, h, i => by
    simp only [List.map_cons, List.cons.injEq] at h
    cases i with
    | zero => exact h.1
    | succ i => exact dataAt_congr l1 l2 h.2 i

theorem cleanCombined_congr (l1 l2 : List QRCode)
    (h : l1.map (fun qr => qr.data) = l2.map (fun qr => qr.data))
    (order : List Nat) : cleanCombined l1 order = cleanCombined l2 order := by
  have : order.map (dataAt l1) = order.map (dataAt l2) :=
    List.map_congr_left (fun i _ => dataAt_congr l1 l2 h i)
  simp [cleanCombined, combineOrder, this]

theorem tryOrder_congr (inflate : String → Option String) (l1 l2 : List QRCode)
    (h : l1.map (fun qr => qr.data) = l2.map (fun qr => qr.data))
    (order : List Nat) : tryOrder inflate l1 order = tryOrder inflate l2 order := by
  simp [tryOrder, cleanCombined_congr l1 l2 h order]

theorem firstSuccess_congr (inflate : String → Option String) (l1 l2 : List QRCode)
    (h : l1.map (fun qr => qr.data) = l2.map (fun qr => qr.data)) :
    ∀ orders, firstSuccess inflate l1 orders = firstSuccess inflate l2 orders
  | [] => rfl
  | o :: os => by
    simp only [firstSuccess, tryOrder_congr inflate l1 l2 h o,
      firstSuccess_congr inflate l1 l2 h os]

/-- C3 counterexample: a candidate whose base64+inflate pipeline succeeds
with the markup text "<a>" — which begins with an opening angle bracket but
not with the XML prolog — is rejected by the heuristic search (`tryOrder`
yields `none`, so the search moves on), even though the claimed predicate
accepts any text beginning with an opening angle bracket. -/
theorem tryOrder_angle_bracket_rejected_cex :
    tryOrder (fun _ => some "<a>") [⟨"Q", none⟩] [0] = none ∧
      jsStartsWith (jsTrim "<a>") "<" = true := by
  decide

/-- C3 (amended): for every candidate byte string that base64-decodes and
inflates successfully, the heuristic search accepts the candidate if and
only if the inflated text, after trimming, begins with the XML prolog
marker "<?xml"; an inflated text beginning with a bare opening angle
bracket is treated as a search failure for that candidate (the laxer
angle-bracket test appears only in `processDeflatedData`'s `isXML` flag,
not in the search oracle). -/
theorem tryOrder_accepts_iff_xml_prolog (inflate : String → Option String)
    (qrCodes : List QRCode) (order : List Nat) (d : String)
    (h : inflate (cleanCombined qrCodes order) = some d) :
    (tryOrder inflate qrCodes order).isSome = true ↔
      jsStartsWith (jsTrim d) "<?xml" = true := by
  rw [tryOrder, h]
  by_cases hx : jsStartsWith (jsTrim d) "<?xml" = true
  · simp [hx]
  · simp [hx]

theorem tryOrder_accepts_iff_xml_prolog_witness :
    (fun _ => some "<?xml version") (cleanCombined [⟨"Q", none⟩] [0]) =
      some "<?xml version" ∧
    ((tryOrder (fun _ => some "<?xml version") [⟨"Q", none⟩] [0]).isSome = true ↔
      jsStartsWith (jsTrim "<?xml version") "<?xml" = true) :=
  ⟨rfl, tryOrder_accepts_iff_xml_prolog (fun _ => some "<?xml version")
    [⟨"Q", none⟩] [0] "<?xml version" rfl⟩

/-- C4 counterexample: for a batch of four fragments the search does not
evaluate all 24 permutations; it builds exactly the six hardcoded orderings
over the three longest fragments, and the identity permutation of all four
fragments is not among the candidates (the shortest fragment appears in no
candidate at all). -/
theorem testOrders_four_fragments_cex :
    testOrders [⟨"AAAA", none⟩, ⟨"BBB", none⟩, ⟨"CC", none⟩, ⟨"D", none⟩] =
      some [[1, 0, 2], [0, 1, 2], [1, 2, 0], [2, 0, 1], [2, 1, 0], [0, 2, 1]] ∧
    ¬ [0, 1, 2, 3] ∈
      [[1, 0, 2], [0, 1, 2], [1, 2, 0], [2, 0, 1], [2, 1, 0], [0, 2, 1]] := by
  decide

/-- C4 (amended): for every batch of at least three fragments — whatever
its size, seven included — the heuristic reassembler builds exactly six
candidate orderings (the six permutations of the three longest fragments:
a constant bound independent of batch size, never the factorial of the
batch size) and then terminates, returning the first validated order if
one candidate succeeds and the no-valid-order outcome otherwise.  Only for
a batch of exactly three fragments are those six candidates all the
permutations; for a batch of two or fewer the source throws a TypeError. -/
theorem detect_bounded_six_candidates (inflate : String → Option String)
    (qrCodes : List QRCode) (h : 3 ≤ qrCodes.length) :
    ∃ orders, testOrders qrCodes = some orders ∧ orders.length = 6 ∧
      ((∃ r, firstSuccess inflate qrCodes orders = some r ∧
          detectStructuredAppendOrder inflate qrCodes = .found r) ∨
        (firstSuccess inflate qrCodes orders = none ∧
          detectStructuredAppendOrder inflate qrCodes = .noValidOrder)) := by
  have hlen : (sortLenDesc (lenIndex qrCodes)).length = qrCodes.length := by
    rw [sortLenDesc_length, lenIndex, lenIndexFrom_length]
  cases hs : sortLenDesc (lenIndex qrCodes) with
  | nil => rw [hs] at hlen; simp at hlen; omega
  | cons s0 t0 =>
    cases ht0 : t0 with
    | nil => rw [hs, ht0] at hlen; simp at hlen; omega
    | cons s1 t1 =>
      cases ht1 : t1 with
      | nil => rw [hs, ht0, ht1] at hlen; simp at hlen; omega
      | cons s2 t2 =>
        have hto : testOrders qrCodes =
            some [[s1.1, s0.1, s2.1], [s0.1, s1.1, s2.1], [s1.1, s2.1, s0.1],
              [s2.1, s0.1, s1.1], [s2.1, s1.1, s0.1], [s0.1, s2.1, s1.1]] := by
          rw [testOrders, hs, ht0, ht1]
        refine ⟨_, hto, rfl, ?_⟩
        cases hfs : firstSuccess inflate qrCodes
            [[s1.1, s0.1, s2.1], [s0.1, s1.1, s2.1], [s1.1, s2.1, s0.1],
              [s2.1, s0.1, s1.1], [s2.1, s1.1, s0.1], [s0.1, s2.1, s1.1]] with
        | none =>
          refine Or.inr ⟨rfl, ?_⟩
          rw [detectStructuredAppendOrder, hto]
          dsimp only
          rw [hfs]
        | some r =>
          refine Or.inl ⟨r, rfl, ?_⟩
          rw [detectStructuredAppendOrder, hto]
          dsimp only
          rw [hfs]

theorem detect_bounded_six_candidates_witness :
    3 ≤ ([⟨"AAAAAAA", none⟩, ⟨"BBBBBB", none⟩, ⟨"CCCCC", none⟩,
        ⟨"DDDD", none⟩, ⟨"EEE", none⟩, ⟨"FF", none⟩, ⟨"G", none⟩] :
      List QRCode).length ∧
    (∃ orders, testOrders
        [⟨"AAAAAAA", none⟩, ⟨"BBBBBB", none⟩, ⟨"CCCCC", none⟩,
          ⟨"DDDD", none⟩, ⟨"EEE", none⟩, ⟨"FF", none⟩, ⟨"G", none⟩] =
        some orders ∧ orders.length = 6 ∧
      ((∃ r, firstSuccess (fun _ => none)
          [⟨"AAAAAAA", none⟩, ⟨"BBBBBB", none⟩, ⟨"CCCCC", none⟩,
            ⟨"DDDD", none⟩, ⟨"EEE", none⟩, ⟨"FF", none⟩, ⟨"G", none⟩]
          orders = some r ∧
        detectStructuredAppendOrder (fun _ => none)
          [⟨"AAAAAAA", none⟩, ⟨"BBBBBB", none⟩, ⟨"CCCCC", none⟩,
            ⟨"DDDD", none⟩, ⟨"EEE", none⟩, ⟨"FF", none⟩, ⟨"G", none⟩] =
          .found r) ∨
        (firstSuccess (fun _ => none)
          [⟨"AAAAAAA", none⟩, ⟨"BBBBBB", none⟩, ⟨"CCCCC", none⟩,
            ⟨"DDDD", none⟩, ⟨"EEE", none⟩, ⟨"FF", none⟩, ⟨"G", none⟩]
          orders = none ∧
        detectStructuredAppendOrder (fun _ => none)
          [⟨"AAAAAAA", none⟩, ⟨"BBBBBB", none⟩, ⟨"CCCCC", none⟩,
            ⟨"DDDD", none⟩, ⟨"EEE", none⟩, ⟨"FF", none⟩, ⟨"G", none⟩] =
          .noValidOrder))) :=
  ⟨by decide,
    detect_bounded_six_candidates (fun _ => none)
      [⟨"AAAAAAA", none⟩, ⟨"BBBBBB", none⟩, ⟨"CCCCC", none⟩,
        ⟨"DDDD", none⟩, ⟨"EEE", none⟩, ⟨"FF", none⟩, ⟨"G", none⟩]
      (by decide)⟩

/-- C9: the heuristic search is deterministic in the fragment payloads:
two batches carrying identical payload strings in identical input
positions produce identical outcomes — the candidate orderings coincide
and the search returns the same accepted order with the same decompressed
output, or the same failure, whatever the two batches' metadata.  (The
embedding is a pure function, so two runs on the very same batch are
trivially equal; this theorem states the stronger payload-only
dependence.) -/
theorem detect_deterministic_on_payloads (inflate : String → Option String)
    (l1 l2 : List QRCode)
    (h : l1.map (fun qr => qr.data) = l2.map (fun qr => qr.data)) :
    detectStructuredAppendOrder inflate l1 =
      detectStructuredAppendOrder inflate l2 := by
  have hli : lenIndex l1 = lenIndex l2 := lenIndexFrom_congr 0 l1 l2 h
  have hto : testOrders l1 = testOrders l2 := by
    rw [testOrders, testOrders, hli]
  rw [detectStructuredAppendOrder, detectStructuredAppendOrder, hto]
  cases testOrders l2 with
  | none => rfl
  | some orders =>
    dsimp only
    rw [firstSuccess_congr inflate l1 l2 h orders]

theorem detect_deterministic_on_payloads_witness :
    ([⟨"A", none⟩, ⟨"BB", some ⟨0, 2, 3⟩⟩, ⟨"CCC", none⟩] :
        List QRCode).map (fun qr => qr.data) =
      ([⟨"A", some ⟨1, 2, 3⟩⟩, ⟨"BB", none⟩, ⟨"CCC", some ⟨2, 2, 3⟩⟩] :
        List QRCode).map (fun qr => qr.data) ∧
    detectStructuredAppendOrder (fun _ => some "<?xml ok")
        [⟨"A", none⟩, ⟨"BB", some ⟨0, 2, 3⟩⟩, ⟨"CCC", none⟩] =
      detectStructuredAppendOrder (fun _ => some "<?xml ok")
        [⟨"A", some ⟨1, 2, 3⟩⟩, ⟨"BB", none⟩, ⟨"CCC", some ⟨2, 2, 3⟩⟩] :=
  ⟨by decide,
    detect_deterministic_on_payloads (fun _ => some "<?xml ok")
      [⟨"A", none⟩, ⟨"BB", some ⟨0, 2, 3⟩⟩, ⟨"CCC", none⟩]
      [⟨"A", some ⟨1, 2, 3⟩⟩, ⟨"BB", none⟩, ⟨"CCC", some ⟨2, 2, 3⟩⟩]
      (by decide)⟩

theorem jsTrimEnd_data (s : String) :
    (jsTrimEnd s).data = (s.data.reverse.dropWhile Char.isWhitespace).reverse :=
  rfl

theorem data_eq_jsTrimEnd_append (s : String) :
    s.data = (jsTrimEnd s).data ++
      (s.data.reverse.takeWhile Char.isWhitespace).reverse := by
  rw [jsTrimEnd_data, ← List.reverse_append,
    List.takeWhile_append_dropWhile Char.isWhitespace s.data.reverse,
    List.reverse_reverse]

theorem jsTrimEnd_pad_whitespace (s : String) :
    ∀ c ∈ (s.data.reverse.takeWhile Char.isWhitespace).reverse,
      c.isWhitespace = true := by
  intro c hc
  rw [List.mem_reverse] at hc
  exact List.mem_takeWhile_imp hc

theorem jsTrimEnd_getLast_not_whitespace (s : String) :
    ∀ c, (jsTrimEnd s).data.getLast? = some c → c.isWhitespace = false := by
  intro c hc
  rw [jsTrimEnd_data, List.getLast?_reverse] at hc
  have h := List.head?_dropWhile_not Char.isWhitespace s.data.reverse
  rw [hc] at h
  exact h

/-- C5 counterexample: on the exact all-addressed path of
`decodeStructuredAppend`, the combined payload is NOT trimmed — an
addressed series whose final fragment ends in padding spaces yields a
`decodedData` that still carries those trailing spaces ("ABC  " rather
than "ABC"). -/
theorem decode_exact_path_no_trim_cex :
    decodeStructuredAppend
        [⟨"AB", some ⟨0, 1, 0⟩⟩, ⟨"C  ", some ⟨1, 1, 0⟩⟩] =
      .structured 2 2 [] true "ABC  "
        [⟨"AB", some ⟨0, 1, 0⟩⟩, ⟨"C  ", some ⟨1, 1, 0⟩⟩] := by
  decide

/-- C5 (amended): in `combineStructuredAppendData` (src/extract_qr.ts) the
combined payload is exactly the concatenation of the fragment payloads in
ascending position order with precisely the trailing whitespace run removed
from the very end and no other character removed (the removed suffix is
all-whitespace, and the kept part ends in a non-whitespace character when
nonempty, so interior whitespace is intact); `decodeStructuredAppend`'s own
exact path returns the concatenation with no trimming at all (trailing
whitespace is only removed later, by the cleaning steps of the
decompression stage). -/
theorem combineStructuredAppendData_spec (l : List StructuredAppendQR) :
    List.Perm (sortPos l) l ∧
    List.Sorted (fun a b => a.position ≤ b.position) (sortPos l) ∧
    ∃ pad : List Char,
      (concatAll ((sortPos l).map (fun qr => qr.data))).data =
        (combineStructuredAppendData l).data ++ pad ∧
      (∀ c ∈ pad, c.isWhitespace = true) ∧
      (∀ c, (combineStructuredAppendData l).data.getLast? = some c →
        c.isWhitespace = false) := by
  unfold combineStructuredAppendData
  exact ⟨sortPos_perm l, sortPos_sorted l, _, data_eq_jsTrimEnd_append _,
    jsTrimEnd_pad_whitespace _, jsTrimEnd_getLast_not_whitespace _⟩

/-- C6: evaluation of the two cleaning steps at an input with an interior
space.  The cleaning step of `processDeflatedData`
(`replace(/[\r\n\s]/g, '').trim()`) removes the interior space — although
its own comment says "remove any CR/LF and trim spaces from end" — while
the cleaning step of `testDecompression`
(`replace(/[\r\n]/g, '').trimEnd()`) preserves it as the claim states. -/
theorem cleanBase64_interior_space_bug :
    cleanBase64 "QUJD REVG" = "QUJDREVG" ∧
      cleanBase64Test "QUJD REVG" = "QUJD REVG" := by
  decide

end TardocDecoder
